import Mathlib

/-!
Shallow embedding of the ER302 RFID reader core (src/src/main.rs): the frame
codec (`calculate_size`, `calculate_xor`), the command catalog, the single
command round trip (`send_request`) and the card workflows (`read_id`,
`read_balance`, `init_balance`, `increase`, `decrease`, `init_card`).

Bytes are modelled as `Nat` values below 256; machine arithmetic (`& 0xFF`,
`>> 8`, `u32::from_le_bytes`) is made explicit with `% 256` and `/ 256`.
The serial transport is modelled as a script of per-round-trip device
behaviors: each `send_request` call consumes one `StepBeh`, whose
`readResult` is `some bytes` when the read succeeds with those bytes and
`none` when the read fails (error or timeout).  A write failure is recorded
in `writeFails`; the Rust code only logs a failed write and continues, so
the model ignores that flag, exactly as the source does.  A Rust `panic!`
or out-of-bounds index is modelled as the `WfResult.crash` outcome.
-/

namespace ER302

/-- Fixed two-byte frame header `AA BB` (main.rs line 10). -/
def HEADER : List Nat := [0xaa, 0xbb]

/-- Application key A (main.rs line 12). -/
def APPKEY : List Nat := [0x17, 0x05, 0x97, 0x27, 0x08, 0x59]

/-- Factory default key (main.rs line 14). -/
def DEFAULTKEY : List Nat := [0xff, 0xff, 0xff, 0xff, 0xff, 0xff]

/-- Access-condition bytes written by init-card (main.rs line 16). -/
def KEYACCESS : List Nat := [0xff, 0x07, 0x80, 0x69]

/-- RFID::calculate_size (main.rs 48-56): the 2-byte little-endian length
field, value = payload length + 1. -/
def calculate_size (data : List Nat) : List Nat :=
  [(data.length + 1) % 256, (data.length + 1) / 256 % 256]

/-- Left fold of XOR over a byte list, with accumulator 0. -/
def xorFold (l : List Nat) : Nat := l.foldl (fun acc x => acc ^^^ x) 0

/-- RFID::calculate_xor (main.rs 59-71): panics (here `none`) when the
buffer has fewer than 4 bytes; otherwise appends the XOR of the bytes from
index 3 to the end. -/
def calculate_xor (data : List Nat) : Option (List Nat) :=
  if data.length < 4 then none
  else some (data ++ [xorFold (data.drop 3)])

/-- The frame built by RFID::send_request (main.rs 77-83) before writing:
header, size, payload, then the checksum appended by `calculate_xor`. -/
def encode_frame (input : List Nat) : Option (List Nat) :=
  calculate_xor (HEADER ++ calculate_size input ++ input)

/-- Device behavior for one `send_request` round trip. -/
structure StepBeh where
  writeFails : Bool
  readResult : Option (List Nat)
deriving Repr, DecidableEq

/-- The buffer `send_request` ends up with (main.rs 93-104): the bytes read
on success, or the untouched 1024-byte zero buffer when the read fails. -/
def recv : Option (List Nat) → List Nat
  | some bs => bs
  | none => List.replicate 1024 0

/-- State threaded through a workflow: the remaining device script, the
command payloads sent so far, and the number of beep calls made. -/
structure DevState where
  script : List StepBeh
  sent : List (List Nat)
  beeps : Nat
deriving Repr, DecidableEq

/-- RFID::send_request (main.rs 74-105).  A failed write is only logged; a
failed read is only logged and leaves the zero buffer untruncated; the
function returns `Ok` in every case.  An exhausted script behaves as a read
failure. -/
def send_request (input : List Nat) (s : DevState) :
    Except String (List Nat) × DevState :=
  (Except.ok (recv (s.script.headD ⟨false, none⟩).readResult),
   ⟨s.script.tail, s.sent ++ [input], s.beeps⟩)

/-- The response the second round trip (anticollision) of a workflow will
receive from the script of state `s`. -/
def antiResp (s : DevState) : List Nat :=
  recv (s.script.tail.headD ⟨false, none⟩).readResult

/-- Mifare-request command payload (main.rs 119). -/
def mifareCmd : List Nat := [0x00, 0x00, 0x01, 0x02, 0x52]

/-- Anticollision command payload (main.rs 126). -/
def anticollisionCmd : List Nat := [0x00, 0x00, 0x02, 0x02]

/-- Select-card command payload using UID bytes 9-12 of the anticollision
response (main.rs 133-135). -/
def selectCmd (cards : List Nat) : List Nat :=
  [0x00, 0x00, 0x03, 0x02, cards.getD 9 0, cards.getD 10 0,
   cards.getD 11 0, cards.getD 12 0]

/-- Authenticate command payload for block 0x35 (main.rs 142-143). -/
def authCmd (key : List Nat) : List Nat :=
  [0x00, 0x00, 0x07, 0x02, 0x60, 0x35] ++ key

/-- Read-balance command payload (main.rs 150). -/
def readBalanceCmd : List Nat := [0x00, 0x00, 0x0b, 0x02, 0x35]

/-- Little-endian 4-byte encoding of a u32 value (Rust to_le_bytes). -/
def u32le (v : Nat) : List Nat :=
  [v % 256, v / 256 % 256, v / 65536 % 256, v / 16777216 % 256]

/-- Init-balance command payload (main.rs 159-160). -/
def initBalanceCmd (v : Nat) : List Nat :=
  [0x00, 0x00, 0x0a, 0x02, 0x35] ++ u32le v

/-- Increase-balance command payload (main.rs 167-168). -/
def increaseCmd (v : Nat) : List Nat :=
  [0x00, 0x00, 0x0d, 0x02, 0x35] ++ u32le v

/-- Decrease-balance command payload (main.rs 175-176). -/
def decreaseCmd (v : Nat) : List Nat :=
  [0x00, 0x00, 0x0c, 0x02, 0x35] ++ u32le v

/-- Init-card command payload (main.rs 183-186). -/
def initCardCmd : List Nat :=
  [0x00, 0x00, 0x09, 0x02, 0x37] ++ APPKEY ++ KEYACCESS ++ DEFAULTKEY

/-- Beep command payload (main.rs 109-110). -/
def beepCmd (time : Nat) : List Nat := [0x00, 0x00, 0x06, 0x01, time % 256]

/-- RFID::beep (main.rs 108-115): one round trip whose outcome is ignored.
The beep counter records that a beep call was made. -/
def beep (time : Nat) (s : DevState) : DevState :=
  ⟨(send_request (beepCmd time) s).2.script,
   (send_request (beepCmd time) s).2.sent,
   (send_request (beepCmd time) s).2.beeps + 1⟩

/-- Workflow outcome: `ok`/`err` mirror Rust `Ok`/`Err`; `crash` models a
panic (out-of-bounds index), which in Rust never returns to the caller. -/
inductive WfResult (α : Type) where
  | ok : α → WfResult α
  | err : String → WfResult α
  | crash : String → WfResult α
deriving Repr, DecidableEq

/-- True exactly on an `ok` outcome. -/
def WfResult.isOk {α : Type} : WfResult α → Bool
  | .ok _ => true
  | _ => false

/-- True exactly on an `err` outcome. -/
def WfResult.isErr {α : Type} : WfResult α → Bool
  | .err _ => true
  | _ => false

/-- RFID::select_card (main.rs 132-138): indexes the anticollision response
at 9..12, so it panics when the buffer is shorter than 13 bytes. -/
def select_card (cards : List Nat) (s : DevState) :
    WfResult Unit × DevState :=
  if cards.length < 13 then (WfResult.crash "index out of bounds", s)
  else (WfResult.ok (), (send_request (selectCmd cards) s).2)

/-- RFID::authenticate (main.rs 141-146): one round trip, always Ok since
`send_request` never fails. -/
def authenticate (key : List Nat) (s : DevState) : WfResult Unit × DevState :=
  (WfResult.ok (), (send_request (authCmd key) s).2)

/-- RFID::read_balance_request (main.rs 149-155): sends the read-balance
command, then decodes `u32::from_le_bytes` from response bytes 9..12,
panicking when the response is shorter than 13 bytes. -/
def read_balance_request (s : DevState) : WfResult Nat × DevState :=
  match send_request readBalanceCmd s with
  | (Except.error e, s1) => (WfResult.err e, s1)
  | (Except.ok balance, s1) =>
    if balance.length < 13 then (WfResult.crash "index out of bounds", s1)
    else (WfResult.ok (balance.getD 9 0 + 256 * balance.getD 10 0 +
            65536 * balance.getD 11 0 + 16777216 * balance.getD 12 0), s1)

/-- RFID::init_balance_request (main.rs 158-163). -/
def init_balance_request (v : Nat) (s : DevState) : WfResult Unit × DevState :=
  (WfResult.ok (), (send_request (initBalanceCmd v) s).2)

/-- RFID::increase_balance_request (main.rs 166-171). -/
def increase_balance_request (v : Nat) (s : DevState) :
    WfResult Unit × DevState :=
  (WfResult.ok (), (send_request (increaseCmd v) s).2)

/-- RFID::decrease_balance_request (main.rs 174-179). -/
def decrease_balance_request (v : Nat) (s : DevState) :
    WfResult Unit × DevState :=
  (WfResult.ok (), (send_request (decreaseCmd v) s).2)

/-- RFID::init_card_request (main.rs 182-189). -/
def init_card_request (s : DevState) : WfResult Unit × DevState :=
  (WfResult.ok (), (send_request initCardCmd s).2)

/-- Uppercase hexadecimal digit for a value below 16. -/
def hexDigit (n : Nat) : Char :=
  if n < 10 then Char.ofNat (48 + n) else Char.ofNat (55 + n)

/-- Rust format `{:02X}` of a byte: two uppercase hex digits. -/
def byteHex (b : Nat) : String :=
  String.mk [hexDigit (b / 16 % 16), hexDigit (b % 16)]

/-- Rust `.map(format {:02X}).collect().join("")` over a byte list. -/
def bytesHex (bs : List Nat) : String := String.join (bs.map byteHex)

/-- RFID::read_id (main.rs 194-214). -/
def read_id (s : DevState) : WfResult String × DevState :=
  match send_request mifareCmd s with
  | (Except.error _, s1) => (WfResult.err "Baghali", s1)
  | (Except.ok _, s1) =>
    match send_request anticollisionCmd s1 with
    | (Except.error _, s2) => (WfResult.err "nothing", s2)
    | (Except.ok cards, s2) =>
      if cards.length > 13 then
        (WfResult.ok (bytesHex ((cards.drop 9).take 4)), beep 2 s2)
      else (WfResult.err "Card not found", s2)

/-- RFID::read_balance (main.rs 217-241). -/
def read_balance (s : DevState) : WfResult String × DevState :=
  match send_request mifareCmd s with
  | (Except.error _, s1) => (WfResult.err "Baghali", s1)
  | (Except.ok _, s1) =>
    match send_request anticollisionCmd s1 with
    | (Except.error _, s2) => (WfResult.err "nothing", s2)
    | (Except.ok cards, s2) =>
      if cards.length > 13 then
        match select_card cards s2 with
        | (WfResult.err e, s3) => (WfResult.err e, s3)
        | (WfResult.crash m, s3) => (WfResult.crash m, s3)
        | (WfResult.ok _, s3) =>
          match authenticate APPKEY s3 with
          | (WfResult.err _, s4) => (WfResult.err "Authentication failed", s4)
          | (WfResult.crash m, s4) => (WfResult.crash m, s4)
          | (WfResult.ok _, s4) =>
            match read_balance_request (beep 2 s4) with
            | (WfResult.err e, s5) => (WfResult.err e, s5)
            | (WfResult.crash m, s5) => (WfResult.crash m, s5)
            | (WfResult.ok n, s5) => (WfResult.ok (toString n), s5)
      else (WfResult.err "Card not found", s2)

/-- Error message returned when a balance write succeeded but the
confirmation read failed (main.rs 260, 294, 327). -/
def partialMsg : String := "Balance has wrote to card but can\x27t retrive balance"

/-- RFID::init_balance (main.rs 244-276). -/
def init_balance (v : Nat) (s : DevState) : WfResult String × DevState :=
  match send_request mifareCmd s with
  | (Except.error _, s1) => (WfResult.err "Baghali", s1)
  | (Except.ok _, s1) =>
    match send_request anticollisionCmd s1 with
    | (Except.error _, s2) => (WfResult.err "nothing", s2)
    | (Except.ok cards, s2) =>
      if cards.length > 13 then
        match select_card cards s2 with
        | (WfResult.err e, s3) => (WfResult.err e, s3)
        | (WfResult.crash m, s3) => (WfResult.crash m, s3)
        | (WfResult.ok _, s3) =>
          match authenticate APPKEY s3 with
          | (WfResult.err _, s4) => (WfResult.err "Authentication failed", s4)
          | (WfResult.crash m, s4) => (WfResult.crash m, s4)
          | (WfResult.ok _, s4) =>
            match init_balance_request v s4 with
            | (WfResult.err e, s5) => (WfResult.err e, s5)
            | (WfResult.crash m, s5) => (WfResult.crash m, s5)
            | (WfResult.ok _, s5) =>
              match read_balance s5 with
              | (WfResult.ok data, s6) => (WfResult.ok data, beep 2 s6)
              | (WfResult.err _, s6) => (WfResult.err partialMsg, s6)
              | (WfResult.crash m, s6) => (WfResult.crash m, s6)
      else (WfResult.err "Card not found", s2)

/-- RFID::increase (main.rs 278-310). -/
def increase (v : Nat) (s : DevState) : WfResult String × DevState :=
  match send_request mifareCmd s with
  | (Except.error _, s1) => (WfResult.err "Baghali", s1)
  | (Except.ok _, s1) =>
    match send_request anticollisionCmd s1 with
    | (Except.error _, s2) => (WfResult.err "nothing", s2)
    | (Except.ok cards, s2) =>
      if cards.length > 13 then
        match select_card cards s2 with
        | (WfResult.err e, s3) => (WfResult.err e, s3)
        | (WfResult.crash m, s3) => (WfResult.crash m, s3)
        | (WfResult.ok _, s3) =>
          match authenticate APPKEY s3 with
          | (WfResult.err _, s4) => (WfResult.err "Authentication failed", s4)
          | (WfResult.crash m, s4) => (WfResult.crash m, s4)
          | (WfResult.ok _, s4) =>
            match increase_balance_request v s4 with
            | (WfResult.err e, s5) => (WfResult.err e, s5)
            | (WfResult.crash m, s5) => (WfResult.crash m, s5)
            | (WfResult.ok _, s5) =>
              match read_balance s5 with
              | (WfResult.ok data, s6) => (WfResult.ok data, beep 2 s6)
              | (WfResult.err _, s6) => (WfResult.err partialMsg, s6)
              | (WfResult.crash m, s6) => (WfResult.crash m, s6)
      else (WfResult.err "Card not found", s2)

/-- RFID::decrease (main.rs 311-343). -/
def decrease (v : Nat) (s : DevState) : WfResult String × DevState :=
  match send_request mifareCmd s with
  | (Except.error _, s1) => (WfResult.err "Baghali", s1)
  | (Except.ok _, s1) =>
    match send_request anticollisionCmd s1 with
    | (Except.error _, s2) => (WfResult.err "nothing", s2)
    | (Except.ok cards, s2) =>
      if cards.length > 13 then
        match select_card cards s2 with
        | (WfResult.err e, s3) => (WfResult.err e, s3)
        | (WfResult.crash m, s3) => (WfResult.crash m, s3)
        | (WfResult.ok _, s3) =>
          match authenticate APPKEY s3 with
          | (WfResult.err _, s4) => (WfResult.err "Authentication failed", s4)
          | (WfResult.crash m, s4) => (WfResult.crash m, s4)
          | (WfResult.ok _, s4) =>
            match decrease_balance_request v s4 with
            | (WfResult.err e, s5) => (WfResult.err e, s5)
            | (WfResult.crash m, s5) => (WfResult.crash m, s5)
            | (WfResult.ok _, s5) =>
              match read_balance s5 with
              | (WfResult.ok data, s6) => (WfResult.ok data, beep 2 s6)
              | (WfResult.err _, s6) => (WfResult.err partialMsg, s6)
              | (WfResult.crash m, s6) => (WfResult.crash m, s6)
      else (WfResult.err "Card not found", s2)

/-- RFID::init_card (main.rs 344-372): authenticates with the default key,
then sends init-card. -/
def init_card (s : DevState) : WfResult String × DevState :=
  match send_request mifareCmd s with
  | (Except.error _, s1) => (WfResult.err "Baghali", s1)
  | (Except.ok _, s1) =>
    match send_request anticollisionCmd s1 with
    | (Except.error _, s2) => (WfResult.err "nothing", s2)
    | (Except.ok cards, s2) =>
      if cards.length > 13 then
        match select_card cards s2 with
        | (WfResult.err e, s3) => (WfResult.err e, s3)
        | (WfResult.crash m, s3) => (WfResult.crash m, s3)
        | (WfResult.ok _, s3) =>
          match authenticate DEFAULTKEY s3 with
          | (WfResult.err _, s4) => (WfResult.err "Authentication failed", s4)
          | (WfResult.crash m, s4) => (WfResult.crash m, s4)
          | (WfResult.ok _, s4) =>
            match init_card_request s4 with
            | (WfResult.ok _, s5) =>
              (WfResult.ok "Card configured successfully", beep 2 s5)
            | (WfResult.err d, s5) =>
              (WfResult.err ("error: " ++ d ++
                " \n info : card was configured or there is a problem to config that"), s5)
            | (WfResult.crash m, s5) => (WfResult.crash m, s5)
      else (WfResult.err "Card not found", s2)

end ER302
namespace ER302

/-- Helper: the frame built by `send_request` always exists (the buffer it
checksums has at least 4 bytes) and its checksum is the XOR of the bytes
from index 3 on: the high length byte followed by the payload. -/
theorem encode_frame_eq (P : List Nat) :
    encode_frame P = some (0xaa :: 0xbb :: (P.length + 1) % 256 ::
      (P.length + 1) / 256 % 256 ::
      (P ++ [xorFold ((P.length + 1) / 256 % 256 :: P)])) := by
  simp [encode_frame, calculate_xor, calculate_size, HEADER]

end ER302
namespace ER302

/-- C2 counterexample: encoding the payload `00 00 01 02 52` produces the
checksum byte 0x51, while the XOR of the bytes `06 00 00 00 01 02 52`
(len_lo through the last payload byte) is 0x57, so the claimed checksum
rule fails on this concrete frame. -/
theorem c2_checksum_counterexample :
    encode_frame [0x00, 0x00, 0x01, 0x02, 0x52] =
      some [0xaa, 0xbb, 0x06, 0x00, 0x00, 0x00, 0x01, 0x02, 0x52, 0x51] ∧
    xorFold [0x06, 0x00, 0x00, 0x00, 0x01, 0x02, 0x52] = 0x57 ∧
    (0x51 : Nat) ≠ 0x57 := by
  refine ⟨?_, by decide, by decide⟩
  decide

/-- C2 amended: for every payload, the checksum byte of the encoded frame
is the XOR of the bytes from index 3 of the frame on, i.e. the HIGH length
byte followed by the payload; the low length byte at index 2 is excluded. -/
theorem c2_checksum_skips_low_length_byte (P : List Nat) :
    encode_frame P = some (HEADER ++ calculate_size P ++ P ++
      [xorFold ((HEADER ++ calculate_size P ++ P).drop 3)]) ∧
    (HEADER ++ calculate_size P ++ P).drop 3 =
      (P.length + 1) / 256 % 256 :: P := by
  constructor
  · simp [encode_frame, calculate_xor, calculate_size, HEADER]
  · simp [calculate_size, HEADER]

/-- C7 counterexample: a 3-byte buffer has the claimed minimum length 3,
yet `calculate_xor` rejects it (the Rust code panics whenever the buffer
has fewer than 4 bytes). -/
theorem c7_checksum_counterexample :
    ([0x00, 0x00, 0x06] : List Nat).length = 3 ∧
    calculate_xor [0x00, 0x00, 0x06] = none := by
  decide

/-- C7 amended: the checksum computation fails fast exactly on buffers
shorter than 4 bytes, and succeeds on every buffer of length at least 4. -/
theorem c7_checksum_threshold_is_four (data : List Nat) :
    calculate_xor data = none ↔ data.length < 4 := by
  unfold calculate_xor
  split <;> simp_all

/-- C9: for every payload with `len(P)+1` below 2^16, the encoded frame is
the header `AA BB`, the 2-byte little-endian length field holding
`len(P)+1`, the payload, and one checksum byte. -/
theorem c9_frame_layout (P : List Nat) (h : P.length + 1 < 65536) :
    ∃ c, encode_frame P = some ([0xaa, 0xbb] ++
      [(P.length + 1) % 256, (P.length + 1) / 256] ++ P ++ [c]) := by
  have hd : (P.length + 1) / 256 % 256 = (P.length + 1) / 256 :=
    Nat.mod_eq_of_lt (by omega)
  refine ⟨xorFold ((P.length + 1) / 256 % 256 :: P), ?_⟩
  rw [encode_frame_eq P, hd]
  simp

/-- C9 witness: the mifare-request payload satisfies the length bound and
its frame has the claimed layout. -/
theorem c9_frame_layout_witness :
    ([0x00, 0x00, 0x01, 0x02, 0x52] : List Nat).length + 1 < 65536 ∧
    ∃ c, encode_frame [0x00, 0x00, 0x01, 0x02, 0x52] = some ([0xaa, 0xbb] ++
      [(([0x00, 0x00, 0x01, 0x02, 0x52] : List Nat).length + 1) % 256,
       (([0x00, 0x00, 0x01, 0x02, 0x52] : List Nat).length + 1) / 256] ++
      [0x00, 0x00, 0x01, 0x02, 0x52] ++ [c]) :=
  ⟨by decide, c9_frame_layout [0x00, 0x00, 0x01, 0x02, 0x52] (by decide)⟩

end ER302
namespace ER302

/-- Device script on which both the serial write and the serial read fail
at every round trip. -/
def allFailScript : DevState :=
  ⟨[⟨true, none⟩, ⟨true, none⟩, ⟨true, none⟩], [], 0⟩

set_option maxRecDepth 20000 in
/-- C1: with the write and the read failing at every round trip, `read_id`
does NOT collapse to a failure: `send_request` swallows both errors and
returns the zero-filled buffer, so the workflow runs to a successful end
and reports UID "00000000". -/
theorem c1_transport_failure_not_surfaced :
    (read_id allFailScript).1 = WfResult.ok "00000000" ∧
    (read_id allFailScript).1.isErr = false := by
  constructor <;> rfl

/-- C3: a balance-confirmation response shorter than 13 bytes drives
`read_balance` into the out-of-bounds index of `read_balance_request`
(main.rs line 153), a panic rather than a status-and-message return. -/
theorem c3_short_balance_response_panics :
    (read_balance ⟨[⟨false, some []⟩, ⟨false, some (List.replicate 14 0)⟩,
        ⟨false, some []⟩, ⟨false, some []⟩, ⟨false, some []⟩,
        ⟨false, some [0x01, 0x02, 0x03]⟩], [], 0⟩).1 =
      WfResult.crash "index out of bounds" := by
  rfl

set_option maxRecDepth 20000 in
/-- C10: when the read of a round trip fails, `send_request` returns `Ok`
with the untruncated 1024-byte zero buffer; 1024 exceeds the 13-byte
card-present threshold, so `read_id` with failing reads succeeds with UID
string "00000000". -/
theorem c10_read_failure_yields_zero_buffer_success (input : List Nat)
    (b1 b2 : Bool) (rest : List StepBeh) (sent : List (List Nat)) (k : Nat) :
    (send_request input ⟨⟨b1, none⟩ :: rest, sent, k⟩).1 =
      Except.ok (List.replicate 1024 0) ∧
    13 < (List.replicate 1024 (0 : Nat)).length ∧
    (read_id ⟨⟨b1, none⟩ :: ⟨b2, none⟩ :: rest, sent, k⟩).1 =
      WfResult.ok "00000000" := by
  refine ⟨rfl, by simp, ?_⟩
  simp only [read_id, send_request, recv, List.headD, List.tail]
  rfl

end ER302
namespace ER302

/-- Helper: one round trip leaves the exact successor state. -/
theorem send_request_eq (input : List Nat) (s : DevState) :
    send_request input s =
      (Except.ok (recv (s.script.headD ⟨false, none⟩).readResult),
       ⟨s.script.tail, s.sent ++ [input], s.beeps⟩) := rfl

/-- Helper: after the mifare and anticollision round trips, every workflow
holds the anticollision response `antiResp s` and has sent exactly the two
corresponding payloads. -/
theorem anti_phase_eq (s : DevState) :
    send_request anticollisionCmd (send_request mifareCmd s).2 =
      (Except.ok (antiResp s),
       ⟨s.script.tail.tail, s.sent ++ [mifareCmd, anticollisionCmd], s.beeps⟩) := by
  simp [send_request, antiResp]

/-- C5: whenever the anticollision response has at most 13 bytes, each of
the six workflows returns the failure "Card not found" and sends nothing
after the mifare-request and anticollision commands: no select-card and no
authenticate payload goes out. -/
theorem c5_card_not_found_short_circuit (s : DevState) (v : Nat)
    (h : (antiResp s).length ≤ 13) :
    ((read_id s).1 = WfResult.err "Card not found" ∧
      (read_id s).2.sent = s.sent ++ [mifareCmd, anticollisionCmd]) ∧
    ((read_balance s).1 = WfResult.err "Card not found" ∧
      (read_balance s).2.sent = s.sent ++ [mifareCmd, anticollisionCmd]) ∧
    ((init_balance v s).1 = WfResult.err "Card not found" ∧
      (init_balance v s).2.sent = s.sent ++ [mifareCmd, anticollisionCmd]) ∧
    ((increase v s).1 = WfResult.err "Card not found" ∧
      (increase v s).2.sent = s.sent ++ [mifareCmd, anticollisionCmd]) ∧
    ((decrease v s).1 = WfResult.err "Card not found" ∧
      (decrease v s).2.sent = s.sent ++ [mifareCmd, anticollisionCmd]) ∧
    ((init_card s).1 = WfResult.err "Card not found" ∧
      (init_card s).2.sent = s.sent ++ [mifareCmd, anticollisionCmd]) := by
  have hn : ¬ 13 <
      (recv (s.script.tail.headD ⟨false, none⟩).readResult).length := by
    simp only [antiResp] at h; omega
  refine ⟨?_, ?_, ?_, ?_, ?_, ?_⟩ <;>
    simp only [read_id, read_balance, init_balance, increase, decrease,
      init_card, send_request_eq, List.tail_cons, gt_iff_lt, if_neg hn] <;>
    simp

end ER302
namespace ER302

/-- A device script whose anticollision response is only 10 bytes long. -/
def shortAntiState : DevState :=
  ⟨[⟨false, some []⟩, ⟨false, some (List.replicate 10 0)⟩], [], 0⟩

/-- C5 witness: on a 10-byte anticollision response, read_id and
read_balance return "Card not found" having sent only the mifare-request
and anticollision payloads. -/
theorem c5_card_not_found_short_circuit_witness :
    (antiResp shortAntiState).length ≤ 13 ∧
    (read_id shortAntiState).1 = WfResult.err "Card not found" ∧
    (read_id shortAntiState).2.sent = shortAntiState.sent ++ [mifareCmd, anticollisionCmd] ∧
    (read_balance shortAntiState).1 = WfResult.err "Card not found" :=
  ⟨by decide,
   (c5_card_not_found_short_circuit shortAntiState 0 (by decide)).1.1,
   (c5_card_not_found_short_circuit shortAntiState 0 (by decide)).1.2,
   (c5_card_not_found_short_circuit shortAntiState 0 (by decide)).2.1.1⟩

/-- C8: whenever the anticollision response is longer than 13 bytes,
read_id succeeds with the uppercase hex string of the response bytes at
offsets 9 through 12, and sends only the mifare-request, anticollision and
beep payloads: no select-card and no authenticate command. -/
theorem c8_read_id_uid_hex (s : DevState) (h : 13 < (antiResp s).length) :
    (read_id s).1 = WfResult.ok (bytesHex (((antiResp s).drop 9).take 4)) ∧
    (read_id s).2.sent = s.sent ++ [mifareCmd, anticollisionCmd, beepCmd 2] := by
  have hp : 13 <
      (recv (s.script.tail.headD ⟨false, none⟩).readResult).length := by
    simp only [antiResp] at h; omega
  simp only [read_id, send_request_eq, List.tail_cons, gt_iff_lt, if_pos hp,
    beep, antiResp]
  refine ⟨trivial, ?_⟩
  simp [send_request_eq]

/-- A device script whose anticollision response carries the UID bytes
AA BB CC DD at offsets 9 through 12. -/
def uidState : DevState :=
  ⟨[⟨false, some []⟩,
    ⟨false, some [0x00, 0x00, 0x0e, 0x02, 0x11, 0x22, 0x33, 0x44, 0x55,
      0xaa, 0xbb, 0xcc, 0xdd, 0x66, 0x77, 0x88, 0x00]⟩,
    ⟨false, some []⟩], [], 0⟩

/-- C8 witness: a 17-byte anticollision response with AA BB CC DD at
offsets 9-12 makes read_id return "AABBCCDD". -/
theorem c8_read_id_uid_hex_witness :
    13 < (antiResp uidState).length ∧
    (read_id uidState).1 = WfResult.ok "AABBCCDD" := by
  refine ⟨by decide, ?_⟩
  rw [(c8_read_id_uid_hex uidState (by decide)).1]
  rfl

end ER302
namespace ER302

/-- Helper: read_id makes exactly one beep call on success and none on a
returned failure. -/
theorem read_id_beeps (s : DevState) :
    ((read_id s).1.isOk = true → (read_id s).2.beeps = s.beeps + 1) ∧
    ((read_id s).1.isErr = true → (read_id s).2.beeps = s.beeps) := by
  simp only [read_id, send_request_eq]
  split
  · simp [beep, send_request_eq, WfResult.isOk, WfResult.isErr]
  · simp [WfResult.isOk, WfResult.isErr]

/-- Helper: the balance round trip decodes the little-endian value at
offsets 9-12 when the response has at least 13 bytes and crashes otherwise;
either way it consumes one script entry and changes no beep count. -/
theorem read_balance_request_eq (s : DevState) :
    read_balance_request s =
      ((if (recv (s.script.headD ⟨false, none⟩).readResult).length < 13
        then WfResult.crash "index out of bounds"
        else WfResult.ok
          ((recv (s.script.headD ⟨false, none⟩).readResult).getD 9 0 +
           256 * (recv (s.script.headD ⟨false, none⟩).readResult).getD 10 0 +
           65536 * (recv (s.script.headD ⟨false, none⟩).readResult).getD 11 0 +
           16777216 * (recv (s.script.headD ⟨false, none⟩).readResult).getD 12 0)),
       ⟨s.script.tail, s.sent ++ [readBalanceCmd], s.beeps⟩) := by
  simp only [read_balance_request, send_request_eq]
  split <;> simp_all

/-- Helper: read_balance makes exactly one beep call on success and none on
a returned failure. -/
theorem read_balance_beeps (s : DevState) :
    ((read_balance s).1.isOk = true → (read_balance s).2.beeps = s.beeps + 1) ∧
    ((read_balance s).1.isErr = true → (read_balance s).2.beeps = s.beeps) := by
  simp only [read_balance, send_request_eq]
  split
  next hc =>
    rw [select_card, if_neg (by omega)]
    simp only [authenticate, send_request_eq, beep, read_balance_request_eq]
    split <;> rename_i heq <;> split at heq <;>
      injection heq with h1 h2 <;> subst h2 <;>
      simp_all [WfResult.isOk, WfResult.isErr]
  next => simp [WfResult.isOk, WfResult.isErr]

end ER302
namespace ER302

/-- Helper: read_balance_beeps restated on an equation with a pair. -/
theorem read_balance_beeps_pair (s : DevState) (r : WfResult String)
    (t : DevState) (h : read_balance s = (r, t)) :
    (r.isOk = true → t.beeps = s.beeps + 1) ∧
    (r.isErr = true → t.beeps = s.beeps) := by
  have h0 := read_balance_beeps s
  rw [h] at h0
  exact h0

/-- Helper: init_card makes exactly one beep call on success and none on a
returned failure. -/
theorem init_card_beeps (s : DevState) :
    ((init_card s).1.isOk = true → (init_card s).2.beeps = s.beeps + 1) ∧
    ((init_card s).1.isErr = true → (init_card s).2.beeps = s.beeps) := by
  simp only [init_card, send_request_eq]
  split
  next hc =>
    rw [select_card, if_neg (by omega)]
    simp only [authenticate, init_card_request, send_request_eq, beep]
    simp [WfResult.isOk, WfResult.isErr]
  next => simp [WfResult.isOk, WfResult.isErr]

/-- Helper: init_balance makes exactly two beep calls on success (one from
the nested confirmation read_balance, one of its own) and none on a
returned failure. -/
theorem init_balance_beeps (s : DevState) (v : Nat) :
    ((init_balance v s).1.isOk = true →
      (init_balance v s).2.beeps = s.beeps + 2) ∧
    ((init_balance v s).1.isErr = true →
      (init_balance v s).2.beeps = s.beeps) := by
  simp only [init_balance, send_request_eq]
  split
  next hc =>
    rw [select_card, if_neg (by omega)]
    simp only [authenticate, init_balance_request, send_request_eq]
    split <;> rename_i heq <;>
      have hp := read_balance_beeps_pair _ _ _ heq <;>
      simp_all [beep, send_request_eq, WfResult.isOk, WfResult.isErr]
  next => simp [WfResult.isOk, WfResult.isErr]

/-- Helper: increase makes exactly two beep calls on success and none on a
returned failure. -/
theorem increase_beeps (s : DevState) (v : Nat) :
    ((increase v s).1.isOk = true → (increase v s).2.beeps = s.beeps + 2) ∧
    ((increase v s).1.isErr = true → (increase v s).2.beeps = s.beeps) := by
  simp only [increase, send_request_eq]
  split
  next hc =>
    rw [select_card, if_neg (by omega)]
    simp only [authenticate, increase_balance_request, send_request_eq]
    split <;> rename_i heq <;>
      have hp := read_balance_beeps_pair _ _ _ heq <;>
      simp_all [beep, send_request_eq, WfResult.isOk, WfResult.isErr]
  next => simp [WfResult.isOk, WfResult.isErr]

/-- Helper: decrease makes exactly two beep calls on success and none on a
returned failure. -/
theorem decrease_beeps (s : DevState) (v : Nat) :
    ((decrease v s).1.isOk = true → (decrease v s).2.beeps = s.beeps + 2) ∧
    ((decrease v s).1.isErr = true → (decrease v s).2.beeps = s.beeps) := by
  simp only [decrease, send_request_eq]
  split
  next hc =>
    rw [select_card, if_neg (by omega)]
    simp only [authenticate, decrease_balance_request, send_request_eq]
    split <;> rename_i heq <;>
      have hp := read_balance_beeps_pair _ _ _ heq <;>
      simp_all [beep, send_request_eq, WfResult.isOk, WfResult.isErr]
  next => simp [WfResult.isOk, WfResult.isErr]

end ER302
namespace ER302

/-- A device script of twelve round trips, each answering with a 14-byte
all-zero response: enough for a full set-balance workflow including the
nested confirmation read. -/
def happyScript : DevState :=
  ⟨List.replicate 12 ⟨false, some (List.replicate 14 0)⟩, [], 0⟩

/-- C4 counterexample: a successful set-balance run makes TWO beep calls,
not exactly one - the nested confirmation read_balance beeps and then
init_balance beeps again. -/
theorem c4_beep_counterexample :
    (init_balance 100 happyScript).1.isOk = true ∧
    happyScript.beeps = 0 ∧
    (init_balance 100 happyScript).2.beeps = 2 ∧
    ¬ (init_balance 100 happyScript).2.beeps = happyScript.beeps + 1 := by
  decide

/-- C4 amended: successful read_id, read_balance and init_card runs make
exactly one beep call; successful init_balance, increase and decrease runs
make exactly two (one from the nested confirmation read_balance and one of
their own); runs that return a failure make none. -/
theorem c4_beep_counts (s : DevState) (v : Nat) :
    ((read_id s).1.isOk = true → (read_id s).2.beeps = s.beeps + 1) ∧
    ((read_id s).1.isErr = true → (read_id s).2.beeps = s.beeps) ∧
    ((read_balance s).1.isOk = true → (read_balance s).2.beeps = s.beeps + 1) ∧
    ((read_balance s).1.isErr = true → (read_balance s).2.beeps = s.beeps) ∧
    ((init_card s).1.isOk = true → (init_card s).2.beeps = s.beeps + 1) ∧
    ((init_card s).1.isErr = true → (init_card s).2.beeps = s.beeps) ∧
    ((init_balance v s).1.isOk = true →
      (init_balance v s).2.beeps = s.beeps + 2) ∧
    ((init_balance v s).1.isErr = true →
      (init_balance v s).2.beeps = s.beeps) ∧
    ((increase v s).1.isOk = true → (increase v s).2.beeps = s.beeps + 2) ∧
    ((increase v s).1.isErr = true → (increase v s).2.beeps = s.beeps) ∧
    ((decrease v s).1.isOk = true → (decrease v s).2.beeps = s.beeps + 2) ∧
    ((decrease v s).1.isErr = true → (decrease v s).2.beeps = s.beeps) :=
  ⟨(read_id_beeps s).1, (read_id_beeps s).2,
   (read_balance_beeps s).1, (read_balance_beeps s).2,
   (init_card_beeps s).1, (init_card_beeps s).2,
   (init_balance_beeps s v).1, (init_balance_beeps s v).2,
   (increase_beeps s v).1, (increase_beeps s v).2,
   (decrease_beeps s v).1, (decrease_beeps s v).2⟩

/-- C4 witness: on the twelve-response script, read_id succeeds with one
beep call and init_balance succeeds with two. -/
theorem c4_beep_counts_witness :
    (read_id happyScript).1.isOk = true ∧
    (read_id happyScript).2.beeps = happyScript.beeps + 1 ∧
    (init_balance 100 happyScript).1.isOk = true ∧
    (init_balance 100 happyScript).2.beeps = happyScript.beeps + 2 :=
  ⟨by decide, (c4_beep_counts happyScript 100).1 (by decide),
   by decide, (c4_beep_counts happyScript 100).2.2.2.2.2.2.1 (by decide)⟩

end ER302
namespace ER302

/-- The state in which the confirmation read_balance of a value-mutating
workflow starts: five round trips (mifare-request, anticollision,
select-card, authenticate, the mutating command `op`) have consumed their
script entries and been sent. -/
def confirmState (s : DevState) (op : List Nat) : DevState :=
  ⟨s.script.tail.tail.tail.tail.tail,
   s.sent ++ [mifareCmd] ++ [anticollisionCmd] ++ [selectCmd (antiResp s)] ++
     [authCmd APPKEY] ++ [op],
   s.beeps⟩

/-- C6: in set-balance, increase and decrease, once the card is present
(anticollision response longer than 13 bytes) the mutating write goes
through, and then: a failing confirmation read yields the distinct
partial-failure message, while a successful confirmation read yields the
freshly read balance value. -/
theorem c6_partial_write_distinct_outcome (s : DevState) (v : Nat)
    (h : 13 < (antiResp s).length) :
    ((read_balance (confirmState s (initBalanceCmd v))).1.isErr = true →
      (init_balance v s).1 = WfResult.err partialMsg) ∧
    (∀ d, (read_balance (confirmState s (initBalanceCmd v))).1 = WfResult.ok d →
      (init_balance v s).1 = WfResult.ok d) ∧
    ((read_balance (confirmState s (increaseCmd v))).1.isErr = true →
      (increase v s).1 = WfResult.err partialMsg) ∧
    (∀ d, (read_balance (confirmState s (increaseCmd v))).1 = WfResult.ok d →
      (increase v s).1 = WfResult.ok d) ∧
    ((read_balance (confirmState s (decreaseCmd v))).1.isErr = true →
      (decrease v s).1 = WfResult.err partialMsg) ∧
    (∀ d, (read_balance (confirmState s (decreaseCmd v))).1 = WfResult.ok d →
      (decrease v s).1 = WfResult.ok d) := by
  have hp : 13 <
      (recv (s.script.tail.headD ⟨false, none⟩).readResult).length := by
    simp only [antiResp] at h; omega
  refine ⟨?_, ?_, ?_, ?_, ?_, ?_⟩ <;>
    simp only [init_balance, increase, decrease, send_request_eq, gt_iff_lt,
      if_pos hp, confirmState, antiResp] <;>
    rw [select_card, if_neg (by omega)] <;>
    simp only [authenticate, init_balance_request, increase_balance_request,
      decrease_balance_request, send_request_eq]
  · intro hE
    split <;> rename_i heq <;> rw [heq] at hE <;> simp_all [WfResult.isErr]
  · intro d hD
    split <;> rename_i heq <;> rw [heq] at hD <;> simp_all
  · intro hE
    split <;> rename_i heq <;> rw [heq] at hE <;> simp_all [WfResult.isErr]
  · intro d hD
    split <;> rename_i heq <;> rw [heq] at hD <;> simp_all
  · intro hE
    split <;> rename_i heq <;> rw [heq] at hE <;> simp_all [WfResult.isErr]
  · intro d hD
    split <;> rename_i heq <;> rw [heq] at hD <;> simp_all

/-- A device script whose five prefix round trips succeed and whose
confirmation read_balance then fails with a 10-byte anticollision
response. -/
def partialScript : DevState :=
  ⟨List.replicate 5 ⟨false, some (List.replicate 14 0)⟩ ++
    [⟨false, some []⟩, ⟨false, some (List.replicate 10 0)⟩], [], 0⟩

/-- C6 witness: on that script the card is present, the confirmation read
fails, and init_balance reports the distinct partial-failure message. -/
theorem c6_partial_write_distinct_outcome_witness :
    13 < (antiResp partialScript).length ∧
    (read_balance (confirmState partialScript (initBalanceCmd 100))).1.isErr
      = true ∧
    (init_balance 100 partialScript).1 = WfResult.err partialMsg :=
  ⟨by decide, by decide,
   (c6_partial_write_distinct_outcome partialScript 100 (by decide)).1
     (by decide)⟩

end ER302
